import Mathlib

/-!
Shallow embedding of the Saffron cross-chain transfer core.

The repository ships two near-duplicate implementations of the sender /
attestation / receiver stack:

* namespace `Mobile` — the React Native modules under
  `Saffron/api/cross-chain/` (`config.ts` + `base-sender.ts`,
  `circle-attestation.ts`, `aptos-receiver.ts`) together with the
  orchestrator `executeCrossChain` from `Saffron/api/cross-chain/index.ts`;
* namespace `Cli` — the script/CLI modules under
  `Saffron-contract/corss/src/` (`base-sender.ts`, `circle-attestation.ts`,
  `aptos-receiver.ts`).

External collaborators (JSON-RPC providers, the Circle HTTP API, the Aptos
SDK, wall-clock time) are modelled as explicit environments: a stub
`Nat → PollResponse` for the attestation authority, per-attempt outcome
functions for transaction submission, and record environments for chain
state.  Time is idealised: queries are instantaneous and the clock advances
exactly one poll interval per `sleep`, so `elapsed = sleeps * pollInterval`.
`while` loops that increment a retry counter once per iteration are embedded
as structural recursion on the remaining retry budget (`fuel`), with
`fuel = maxRetries - retries`; the loop guard `retries < maxRetries`
corresponds to `fuel > 0` and `retries == maxRetries - 1` to `fuel = 1`.
-/

namespace Saffron

/-- Status literal of a progress emission (`"processing" | "completed" | "failed"`). -/
inductive ProgressStatus where
  | processing
  | completed
  | failed
  deriving DecidableEq, Repr

/-- The data a successful attestation poll returns
(`{status:"complete", messageHash, messageBytes, attestation}` with the
always-`complete` status field left implicit). -/
structure AttestationData where
  messageHash : String
  messageBytes : String
  attestation : String
  deriving DecidableEq, Repr

/-- The numeric part of the Circle API configuration
(`pollInterval`, `maxRetries`, `maxWaitTime`); both copies of the code use
the same values. -/
structure PollConfig where
  maxRetries : Nat
  pollInterval : Nat
  maxWaitTime : Nat
  deriving DecidableEq, Repr

/-- `CROSS_CHAIN_CONFIG.CIRCLE_API` from `config.ts` and `CIRCLE_API_CONFIG`
from the CLI `circle-attestation.ts`: 150 retries, 2000 ms interval,
300000 ms deadline. -/
def CIRCLE_API : PollConfig := ⟨150, 2000, 300000⟩

/-- One answer of the attestation authority to `GET /v1/attestations/{hash}`:
HTTP 404, another non-success HTTP status, or a JSON body
`{status, message, attestation}`. -/
inductive PollResponse where
  | notFound
  | httpError (code : Nat)
  | ok (status : String) (message : String) (attestation : String)
  deriving DecidableEq, Repr

/-- The errors the polling loops can raise. -/
inductive PollError where
  | timeout
  | apiError (code : Nat)
  | attestationFailed
  | maxRetriesExceeded
  deriving DecidableEq, Repr

/-! ## Address codec (`aptosAddressToBytes32`, identical in both copies) -/

/-- JS `s.replace("0x", "")`: remove the first occurrence of the substring
`"0x"`, scanning left to right. -/
def replaceFirst0x : List Char → List Char
  | [] => []
  | [c] => [c]
  | c1 :: c2 :: rest =>
    if c1 = '0' ∧ c2 = 'x' then rest
    else c1 :: replaceFirst0x (c2 :: rest)

/-- The single failure of the codec (`throw new Error("Invalid Aptos address length")`). -/
inductive AddrError where
  | invalidLength
  deriving DecidableEq, Repr

/-- `aptosAddressToBytes32`: strip the first `"0x"`, require exactly 64
remaining characters, and return `"0x" + cleanAddress`. -/
def aptosAddressToBytes32 (aptosAddress : List Char) : Except AddrError (List Char) :=
  let cleanAddress := replaceFirst0x aptosAddress
  if cleanAddress.length = 64 then .ok ('0' :: 'x' :: cleanAddress)
  else .error .invalidLength

/-- A hexadecimal digit (either case). -/
def isHexDigit (c : Char) : Prop :=
  c.isDigit ∨ ('a' ≤ c ∧ c ≤ 'f') ∨ ('A' ≤ c ∧ c ≤ 'F')

instance (c : Char) : Decidable (isHexDigit c) := by
  unfold isHexDigit; infer_instance

namespace Mobile

/-! ## Attestation poller, React Native copy
(`Saffron/api/cross-chain/circle-attestation.ts`, `getAttestation`).

Loop body per iteration, in source order: (outside the `try`) check
`elapsed > maxWaitTime` and throw the timeout error; then inside the `try`
fetch the stub; on 404 sleep and retry; on another non-success status throw
an API error, which the surrounding `catch` converts into sleep-and-retry
unless this is the last attempt; on `status === "complete"` with a
non-empty attestation return; otherwise sleep and retry.  The result is
paired with the number of queries made and the number of sleeps taken. -/

def getAttestationAux (cfg : PollConfig) (stub : Nat → PollResponse) (messageHash : String) :
    Nat → Nat → Nat → Except PollError AttestationData × Nat × Nat
  | 0, queries, sleeps => (.error .maxRetriesExceeded, queries, sleeps)
  | fuel + 1, queries, sleeps =>
    if sleeps * cfg.pollInterval > cfg.maxWaitTime then
      (.error .timeout, queries, sleeps)
    else
      match stub queries with
      | .notFound => getAttestationAux cfg stub messageHash fuel (queries + 1) (sleeps + 1)
      | .httpError code =>
        if fuel = 0 then (.error (.apiError code), queries + 1, sleeps)
        else getAttestationAux cfg stub messageHash fuel (queries + 1) (sleeps + 1)
      | .ok status message attestation =>
        if status = "complete" ∧ attestation ≠ "" then
          (.ok ⟨messageHash, message, attestation⟩, queries + 1, sleeps)
        else getAttestationAux cfg stub messageHash fuel (queries + 1) (sleeps + 1)

/-- `CircleAttestationService.getAttestation`, React Native copy. -/
def getAttestation (cfg : PollConfig) (stub : Nat → PollResponse) (messageHash : String) :
    Except PollError AttestationData × Nat × Nat :=
  getAttestationAux cfg stub messageHash cfg.maxRetries 0 0

end Mobile

namespace Cli

/-! ## Attestation poller, CLI copy
(`Saffron-contract/corss/src/circle-attestation.ts`, `getAttestation`).

Differs from the React Native copy in two ways: the wall-clock deadline
check sits INSIDE the `try`, so the timeout error it throws is caught by
the generic `catch`, which sleeps and retries unless this is the last
attempt; and a JSON body with `status === "failed"` throws (also caught by
the same `catch`).  The `data.message` backfill from the transaction
receipt (taken when the body has an empty message and a txHash/provider
were passed) is outside the claims and is represented by the stubbed
`message` field itself. -/

def getAttestationAux (cfg : PollConfig) (stub : Nat → PollResponse) (messageHash : String) :
    Nat → Nat → Nat → Except PollError AttestationData × Nat × Nat
  | 0, queries, sleeps => (.error .maxRetriesExceeded, queries, sleeps)
  | fuel + 1, queries, sleeps =>
    if sleeps * cfg.pollInterval > cfg.maxWaitTime then
      if fuel = 0 then (.error .timeout, queries, sleeps)
      else getAttestationAux cfg stub messageHash fuel queries (sleeps + 1)
    else
      match stub queries with
      | .notFound => getAttestationAux cfg stub messageHash fuel (queries + 1) (sleeps + 1)
      | .httpError code =>
        if fuel = 0 then (.error (.apiError code), queries + 1, sleeps)
        else getAttestationAux cfg stub messageHash fuel (queries + 1) (sleeps + 1)
      | .ok status message attestation =>
        if status = "complete" ∧ attestation ≠ "" then
          (.ok ⟨messageHash, message, attestation⟩, queries + 1, sleeps)
        else if status = "failed" then
          if fuel = 0 then (.error .attestationFailed, queries + 1, sleeps)
          else getAttestationAux cfg stub messageHash fuel (queries + 1) (sleeps + 1)
        else getAttestationAux cfg stub messageHash fuel (queries + 1) (sleeps + 1)

/-- `CircleAttestationService.getAttestation`, CLI copy. -/
def getAttestation (cfg : PollConfig) (stub : Nat → PollResponse) (messageHash : String) :
    Except PollError AttestationData × Nat × Nat :=
  getAttestationAux cfg stub messageHash cfg.maxRetries 0 0

end Cli

/-! ## Source-chain senders -/

/-- Observable invocations of the sender flow, for stating which
operations a run performs. -/
inductive SendAction where
  | checkBalance
  | approve
  | depositForBurn
  deriving DecidableEq, Repr

namespace Cli

/-- `CrossChainResult` of the CLI `base-sender.ts`. -/
structure CrossChainResult where
  txHash : String
  nonce : String
  messageBytes : Option String
  deriving DecidableEq, Repr

/-- An error thrown inside the `depositForBurn` attempt body; the retry
logic tests `error.code === "NONCE_EXPIRED"`. -/
inductive TxError where
  | nonceExpired (msg : String)
  | other (msg : String)
  deriving DecidableEq, Repr

/-- `error.code === "NONCE_EXPIRED"`. -/
def TxError.isNonceExpired : TxError → Bool
  | .nonceExpired _ => true
  | .other _ => false

/-- `BaseCCTPSender.depositForBurn`, CLI copy: a `for` loop over attempts
1..3 whose whole body (address validation, RPC calls, waiting, event
extraction) is abstracted by the per-attempt outcome `env attempt`.  The
`catch` sleeps 2000 ms and `continue`s on a nonce-expired error before the
last attempt, rethrows on the last attempt (`attempt === maxRetries`), and
otherwise falls through to the next attempt without sleeping.  Returns the
outcome together with the number of attempts made and the number of
2-second backoff sleeps taken.  The fuel-0 branch mirrors the trailing
`throw lastError` after the loop, unreachable from `depositForBurn`. -/
def depositForBurnAux (env : Nat → Except TxError CrossChainResult) :
    Nat → Nat → Nat → Except TxError CrossChainResult × Nat × Nat
  | 0, attempt, sleeps => (.error (.other "Cross-chain transfer failed"), attempt, sleeps)
  | fuel + 1, attempt, sleeps =>
    match env attempt with
    | .ok r => (.ok r, attempt, sleeps)
    | .error e =>
      if e.isNonceExpired ∧ attempt < 3 then
        depositForBurnAux env fuel (attempt + 1) (sleeps + 1)
      else if attempt = 3 then (.error e, attempt, sleeps)
      else depositForBurnAux env fuel (attempt + 1) sleeps

/-- `depositForBurn` with `maxRetries = 3`, attempts numbered from 1. -/
def depositForBurn (env : Nat → Except TxError CrossChainResult) :
    Except TxError CrossChainResult × Nat × Nat :=
  depositForBurnAux env 3 1 0

/-- Failure of the composed CLI flow `executeFullCrossChain`. -/
inductive SendError where
  | insufficientBalance (balance required : ℚ)
  | balanceCheckFailed (msg : String)
  | approveFailed (msg : String)
  | burnFailed (e : TxError)
  deriving DecidableEq, Repr

/-- Environment of the CLI `executeFullCrossChain`: the balance read, the
approval outcome, and the per-attempt burn outcomes. -/
structure SendEnv where
  balanceOutcome : Except String ℚ
  approveOutcome : Except String String
  depositEnv : Nat → Except TxError CrossChainResult

/-- `BaseCCTPSender.executeFullCrossChain`, CLI copy: check the USDC
balance (throwing `Insufficient USDC balance, current: …, required: …`
when `parseFloat(balance) < parseFloat(amount)`), then approve, then
`depositForBurn`.  Decimal amount strings are modelled as rationals.  The
returned action list records which of the three operations were invoked. -/
def executeFullCrossChain (amount : ℚ) (env : SendEnv) :
    Except SendError CrossChainResult × List SendAction :=
  match env.balanceOutcome with
  | .error msg => (.error (.balanceCheckFailed msg), [.checkBalance])
  | .ok balance =>
    if balance < amount then
      (.error (.insufficientBalance balance amount), [.checkBalance])
    else
      match env.approveOutcome with
      | .error msg => (.error (.approveFailed msg), [.checkBalance, .approve])
      | .ok _ =>
        match (depositForBurn env.depositEnv).1 with
        | .error e => (.error (.burnFailed e), [.checkBalance, .approve, .depositForBurn])
        | .ok r => (.ok r, [.checkBalance, .approve, .depositForBurn])

end Cli

namespace Mobile

/-- `BaseSendResult` of the React Native `base-sender.ts`. -/
structure BaseSendResult where
  txHash : String
  nonce : String
  messageBytes : Option String
  deriving DecidableEq, Repr

/-- Environment of the React Native `executeFullCrossChain`: the
on-chain sender USDC balance (readable but never read by this copy), the nonce
fetched once up front, and the outcomes of `approveUSDC` / `depositForBurn`
as functions of the nonce they are invoked with. -/
structure SendEnv where
  balance : ℚ
  initialNonce : Nat
  approveOutcome : Nat → Except String String
  depositOutcome : Nat → Except String BaseSendResult

/-- `BaseCCTPSender.executeFullCrossChain`, React Native copy: fetch the
nonce once, `approveUSDC` with it, `depositForBurn` with nonce + 1.  This
copy performs no balance check at all. -/
def executeFullCrossChain (amount : ℚ) (recipientAddress : List Char) (env : SendEnv) :
    Except String BaseSendResult × List SendAction :=
  match env.approveOutcome env.initialNonce with
  | .error msg => (.error msg, [.approve])
  | .ok _ =>
    match env.depositOutcome (env.initialNonce + 1) with
    | .error msg => (.error msg, [.approve, .depositForBurn])
    | .ok r => (.ok r, [.approve, .depositForBurn])

end Mobile

/-! ## Destination-chain receivers -/

/-- JS `s.startsWith("0x")`.  (Expressed on the underlying character list
so that it evaluates by kernel reduction.) -/
def startsWith0x (s : String) : Bool :=
  match s.toList with
  | '0' :: 'x' :: _ => true
  | _ => false

/-- `AptosReceiveResult` (both copies): `usdcAmount` is a decimal string of
smallest units in the source; it is modelled by its integer value. -/
structure AptosReceiveResult where
  txHash : String
  success : Bool
  usdcAmount : Option Int
  deriving DecidableEq, Repr

/-- Destination-chain environment of one receive call: the hash the
submission returns, whether the SDK calls (key parsing, build, submit,
wait) succeed, whether the confirmed transaction reports success, and the
balances `checkUSDCBalance` reads before and after (that helper returns
`"0"` instead of throwing, so it contributes no failure case). -/
structure ChainEnv where
  txHash : String
  submitOk : Bool
  txnSuccess : Bool
  balanceBefore : Int
  balanceAfter : Int
  deriving DecidableEq, Repr

namespace Mobile

/-- `AptosCCTPReceiver.receiveCCTPUSDC`, React Native copy: validate both
hex arguments, read the balance, submit, require on-chain success, read
the balance again and report `BigInt(balanceAfter) - BigInt(balanceBefore)`.
Every thrown error is caught by the method itself, which then returns the
structured failure `{txHash:"", success:false, usdcAmount:"0"}`. -/
def receiveCCTPUSDC (messageBytes attestation : String) (env : ChainEnv) :
    AptosReceiveResult :=
  if messageBytes = "" ∨ ¬ startsWith0x messageBytes then ⟨"", false, some 0⟩
  else if attestation = "" ∨ ¬ startsWith0x attestation then ⟨"", false, some 0⟩
  else if ¬ env.submitOk then ⟨"", false, some 0⟩
  else if ¬ env.txnSuccess then ⟨"", false, some 0⟩
  else ⟨env.txHash, true, some (env.balanceAfter - env.balanceBefore)⟩

end Mobile

namespace Cli

/-- `AptosCCTPReceiver.receiveCCTPUSDC`, CLI copy: same shape, but the
validators additionally require length > 10 and the optional recipient
private key must be present. -/
def receiveCCTPUSDC (messageBytes attestation : String) (hasRecipientPrivateKey : Bool)
    (env : ChainEnv) : AptosReceiveResult :=
  if ¬ (startsWith0x messageBytes ∧ messageBytes.length > 10) then ⟨"", false, some 0⟩
  else if ¬ (startsWith0x attestation ∧ attestation.length > 10) then ⟨"", false, some 0⟩
  else if ¬ hasRecipientPrivateKey then ⟨"", false, some 0⟩
  else if ¬ env.submitOk then ⟨"", false, some 0⟩
  else if ¬ env.txnSuccess then ⟨"", false, some 0⟩
  else ⟨env.txHash, true, some (env.balanceAfter - env.balanceBefore)⟩

end Cli

/-! ## Orchestrator (`Saffron/api/cross-chain/index.ts`, `executeCrossChain`) -/

/-- `CrossChainProgress`. -/
structure CrossChainProgress where
  step : Nat
  totalSteps : Nat
  status : ProgressStatus
  message : String
  txHash : Option String
  details : Option String
  percentage : Option Nat
  deriving DecidableEq, Repr

/-- `CROSS_CHAIN_CONFIG.USDC_AMOUNT` from `config.ts`. -/
def USDC_AMOUNT : String := "1.0"

/-- The single failure emission of the orchestrator `catch` block:
`{step:0, totalSteps:3, status:"failed", message:"Cross-chain failed",
details:error.message, percentage:0}`. -/
def failProgress (msg : String) : CrossChainProgress :=
  ⟨0, 3, .failed, "Cross-chain failed", none, some msg, some 0⟩

namespace Mobile

/-- `CrossChainResult` of the orchestrator. -/
structure CrossChainResult where
  success : Bool
  baseTxHash : Option String
  aptosTxHash : Option String
  usdcAmount : Option String
  error : Option String
  deriving DecidableEq, Repr

/-- Environment of one orchestrator run: the outcome of step 1
(`executeFullCrossChain`, whose thrown error is its message string), the
outcome of step 2 (`getAttestationFromTransaction`), and the
destination-chain environment consumed by step 3. -/
structure OrchEnv where
  sendOutcome : Except String BaseSendResult
  attestOutcome : Except String AttestationData
  receiverEnv : ChainEnv

/-- `executeCrossChain`: drive the three steps in sequence, emitting the
progress values of the source verbatim; any thrown error reaches the
single `catch`, which emits `failProgress` and returns
`{success:false, error:error.message}`.  Step 3 never throws (the React
Native receiver returns a structured failure), so the orchestrator tests
`receiveResult.success` and itself throws `Error("Aptos receive failed")`. -/
def executeCrossChain (env : OrchEnv) : List CrossChainProgress × CrossChainResult :=
  let step1Processing : CrossChainProgress :=
    ⟨1, 3, .processing, "Burning USDC on Base chain...", none, none, some 10⟩
  match env.sendOutcome with
  | .error msg => ([step1Processing, failProgress msg], ⟨false, none, none, none, some msg⟩)
  | .ok sendResult =>
    let step1Completed : CrossChainProgress :=
      ⟨1, 3, .completed, "Base chain transaction successful", some sendResult.txHash, none, some 33⟩
    let step2Processing : CrossChainProgress :=
      ⟨2, 3, .processing, "Waiting for Circle signature...", none, none, some 40⟩
    match env.attestOutcome with
    | .error msg =>
      ([step1Processing, step1Completed, step2Processing, failProgress msg],
       ⟨false, none, none, none, some msg⟩)
    | .ok attestationData =>
      let step2Completed : CrossChainProgress :=
        ⟨2, 3, .completed, "Circle signature retrieved successfully", none, none, some 66⟩
      let step3Processing : CrossChainProgress :=
        ⟨3, 3, .processing, "Receiving USDC on Aptos chain...", none, none, some 75⟩
      let receiveResult :=
        receiveCCTPUSDC attestationData.messageBytes attestationData.attestation env.receiverEnv
      if receiveResult.success then
        let step3Completed : CrossChainProgress :=
          ⟨3, 3, .completed, "Cross-chain completed!", some receiveResult.txHash, none, some 100⟩
        ([step1Processing, step1Completed, step2Processing, step2Completed,
          step3Processing, step3Completed],
         ⟨true, some sendResult.txHash, some receiveResult.txHash, some USDC_AMOUNT, none⟩)
      else
        ([step1Processing, step1Completed, step2Processing, step2Completed,
          step3Processing, failProgress "Aptos receive failed"],
         ⟨false, none, none, none, some "Aptos receive failed"⟩)

end Mobile

/-! ## Base64 decoding (`AptosCCTPReceiver.base64ToBytes`, React Native copy)

The method uses the platform `atob` when available and otherwise a manual
fallback loop.  Both paths are modelled as `List Char → List Nat` (byte
values; `String.fromCharCode`/`charCodeAt` round-trips each value, which
stays below 256 for valid base64 input). -/

/-- The character table of the fallback,
`"ABCDEFGHIJKLMNOPQRSTUVWXYZabcdefghijklmnopqrstuvwxyz0123456789+/="`. -/
def b64chars : List Char :=
  "ABCDEFGHIJKLMNOPQRSTUVWXYZabcdefghijklmnopqrstuvwxyz0123456789+/=".toList

/-- JS `chars.indexOf(c)` for characters of the table.  (JS yields -1 for a
character outside the table where `List.indexOf` yields 65; every statement
below evaluates the decoders on valid base64 text only, where the two
agree.) -/
def jsIndexOf (c : Char) : Nat := b64chars.indexOf c

/-- `chars.indexOf(str.charAt(i))`: past the end of the string `charAt`
returns the empty string and `indexOf("")` is 0. -/
def encAt : Option Char → Nat
  | some c => jsIndexOf c
  | none => 0

/-- One iteration of the fallback loop: read up to four characters, compute
`chr1`, `chr2`, `chr3` with the shift/mask formulas of the source, and append
`chr2`/`chr3` unless the corresponding index is 64 (the index of "="). -/
def fallbackBlock (a : Char) (b c d : Option Char) : List Nat :=
  let enc1 := jsIndexOf a
  let enc2 := encAt b
  let enc3 := encAt c
  let enc4 := encAt d
  let chr1 := (enc1 <<< 2) ||| (enc2 >>> 4)
  let chr2 := ((enc2 &&& 15) <<< 4) ||| (enc3 >>> 2)
  let chr3 := ((enc3 &&& 3) <<< 6) ||| enc4
  [chr1] ++ (if enc3 ≠ 64 then [chr2] else []) ++ (if enc4 ≠ 64 then [chr3] else [])

/-- The fallback loop `for (i = 0; i < str.length; i += 4)`. -/
def fallbackChunks : List Char → List Nat
  | [] => []
  | [a] => fallbackBlock a none none none
  | [a, b] => fallbackBlock a (some b) none none
  | [a, b, c] => fallbackBlock a (some b) (some c) none
  | a :: b :: c :: d :: rest => fallbackBlock a (some b) (some c) (some d) ++ fallbackChunks rest

/-- JS `base64.replace(/=+$/, "")`: drop every trailing "=". -/
def stripTrailingEq (s : List Char) : List Char :=
  (s.reverse.dropWhile (· = '=')).reverse

/-- The manual fallback path of `base64ToBytes` (`atob` unavailable). -/
def fallbackBase64ToBytes (s : List Char) : List Nat :=
  fallbackChunks (stripTrailingEq s)

/-- Standard base64 decoding of a padding-stripped string, three bytes per
full four-character block, one byte for a trailing two-character block and
two bytes for a trailing three-character block.  This is the behaviour of
the platform `atob` (WHATWG forgiving-base64) on valid input; a lone
trailing character is invalid and decodes to nothing here. -/
def atobChunks : List Char → List Nat
  | [] => []
  | [_] => []
  | [a, b] => [(jsIndexOf a <<< 2) ||| (jsIndexOf b >>> 4)]
  | [a, b, c] =>
    [(jsIndexOf a <<< 2) ||| (jsIndexOf b >>> 4),
     ((jsIndexOf b &&& 15) <<< 4) ||| (jsIndexOf c >>> 2)]
  | a :: b :: c :: d :: rest =>
    [(jsIndexOf a <<< 2) ||| (jsIndexOf b >>> 4),
     ((jsIndexOf b &&& 15) <<< 4) ||| (jsIndexOf c >>> 2),
     ((jsIndexOf c &&& 3) <<< 6) ||| jsIndexOf d] ++ atobChunks rest

/-- The `atob` path of `base64ToBytes`. -/
def atobBase64ToBytes (s : List Char) : List Nat :=
  atobChunks (stripTrailingEq s)

/-- The embedded precompiled Move script, `CCTP_SCRIPT_BASE64` of
`aptos-receiver.ts` (312 characters, ending in "=="). -/
def CCTP_SCRIPT_BASE64 : String :=
  "oRzrCwcAAAoGAQAEAgQEAwgMBRQWBypTCH1AAAABAQACAAAAAwIDAAEBBAMEAAEDBgwKAgoCAAMGDAYKAgYKAgEIAAEBE21lc3NhZ2VfdHJhbnNtaXR0ZXIPdG9rZW5fbWVzc2VuZ2VyB1JlY2VpcHQPcmVjZWl2ZV9tZXNzYWdlFmhhbmRsZV9yZWNlaXZlX21lc3NhZ2UIHobOv0V6DGAE81vWSKJ5Rpj1Lg3eCaSGGdzT1Mwj2V+bk3QZ3akKoGwYNreEf2W7vj8SF1Z3WNwkiL4xpHe5AAABBwsADgEOAhEAEQEBAg=="

/-! ## Concrete fixtures used by the theorems below -/

/-- A poll configuration with a wall-clock deadline (3) that expires after
two sleeps of the interval (2), well before the five allowed attempts. -/
def shortDeadlineCfg : PollConfig := ⟨5, 2, 3⟩

/-- A stub attestation authority that always answers HTTP 404. -/
def stubAlways404 : Nat → PollResponse := fun _ => .notFound

/-- A stub attestation authority that answers 404 on the first three
queries and a complete attestation on the fourth. -/
def stub404x3 (message attestation : String) : Nat → PollResponse :=
  fun q => if q < 3 then .notFound else .ok "complete" message attestation

/-- A successful step-1 result. -/
def sampleSend : Mobile.BaseSendResult := ⟨"0xbasetx", "0xeventnonce", some "0xmessagebytes"⟩

/-- A successful step-2 result with well-formed hex payloads. -/
def sampleAttestation : AttestationData := ⟨"0xhash", "0xmessagebytes", "0xattestationsig"⟩

/-- A destination chain on which the receive succeeds; the balance delta
(2999) differs from a nominal request of 3000 smallest units. -/
def goodChainEnv : ChainEnv := ⟨"0xaptostx", true, true, 1000, 3999⟩

/-- A destination chain on which the submitted transaction reverts. -/
def revertChainEnv : ChainEnv := ⟨"0xaptostx", true, false, 1000, 1000⟩

/-- An orchestrator run in which all three steps succeed. -/
def successOrchEnv : Mobile.OrchEnv := ⟨.ok sampleSend, .ok sampleAttestation, goodChainEnv⟩

/-- An orchestrator run in which the destination transaction reverts. -/
def revertOrchEnv : Mobile.OrchEnv := ⟨.ok sampleSend, .ok sampleAttestation, revertChainEnv⟩

/-- An orchestrator run in which step 1 throws. -/
def sendFailOrchEnv : Mobile.OrchEnv := ⟨.error "boom", .error "unused", goodChainEnv⟩

/-- A successful CLI burn result. -/
def cliBurnResult : Cli.CrossChainResult := ⟨"0xburntx", "0xeventnonce", some "0xmessagebytes"⟩

/-- A React Native sender environment whose balance (2) is below a request
of 3, with approval and burn both available. -/
def lowBalanceMobileEnv : Mobile.SendEnv :=
  ⟨2, 7, fun _ => .ok "0xapprovetx", fun _ => .ok sampleSend⟩

/-- A CLI sender environment whose balance reads 2. -/
def lowBalanceCliEnv : Cli.SendEnv := ⟨.ok 2, .ok "0xapprovetx", fun _ => .ok cliBurnResult⟩

/-- Per-attempt burn outcomes: a non-nonce error on the first attempt, then
success. -/
def otherThenOkEnv : Nat → Except Cli.TxError Cli.CrossChainResult :=
  fun attempt =>
    if attempt = 1 then .error (.other "insufficient funds for gas") else .ok cliBurnResult

/-- A 64-character hexadecimal address body. -/
def h64 : List Char := List.replicate 64 'a'

/-! ## Theorems -/

/-- Unfolding equation for one iteration of the React Native poll loop. -/
theorem mobileGetAttestationAux_succ (cfg : PollConfig) (stub : Nat → PollResponse)
    (mh : String) (fuel queries sleeps : Nat) :
    Mobile.getAttestationAux cfg stub mh (fuel + 1) queries sleeps =
      (if sleeps * cfg.pollInterval > cfg.maxWaitTime then
        (.error .timeout, queries, sleeps)
      else
        match stub queries with
        | .notFound => Mobile.getAttestationAux cfg stub mh fuel (queries + 1) (sleeps + 1)
        | .httpError code =>
          if fuel = 0 then (.error (.apiError code), queries + 1, sleeps)
          else Mobile.getAttestationAux cfg stub mh fuel (queries + 1) (sleeps + 1)
        | .ok status message attestation =>
          if status = "complete" ∧ attestation ≠ "" then
            (.ok ⟨mh, message, attestation⟩, queries + 1, sleeps)
          else Mobile.getAttestationAux cfg stub mh fuel (queries + 1) (sleeps + 1)) := rfl

/-- Unfolding equation for one iteration of the CLI poll loop. -/
theorem cliGetAttestationAux_succ (cfg : PollConfig) (stub : Nat → PollResponse)
    (mh : String) (fuel queries sleeps : Nat) :
    Cli.getAttestationAux cfg stub mh (fuel + 1) queries sleeps =
      (if sleeps * cfg.pollInterval > cfg.maxWaitTime then
        if fuel = 0 then (.error .timeout, queries, sleeps)
        else Cli.getAttestationAux cfg stub mh fuel queries (sleeps + 1)
      else
        match stub queries with
        | .notFound => Cli.getAttestationAux cfg stub mh fuel (queries + 1) (sleeps + 1)
        | .httpError code =>
          if fuel = 0 then (.error (.apiError code), queries + 1, sleeps)
          else Cli.getAttestationAux cfg stub mh fuel (queries + 1) (sleeps + 1)
        | .ok status message attestation =>
          if status = "complete" ∧ attestation ≠ "" then
            (.ok ⟨mh, message, attestation⟩, queries + 1, sleeps)
          else if status = "failed" then
            if fuel = 0 then (.error .attestationFailed, queries + 1, sleeps)
            else Cli.getAttestationAux cfg stub mh fuel (queries + 1) (sleeps + 1)
          else Cli.getAttestationAux cfg stub mh fuel (queries + 1) (sleeps + 1)) := rfl

/-- Claim C3 (code bug): against a stub authority that always answers 404,
the CLI `getAttestation` does not end the loop when the wall-clock deadline
is first exceeded (after 2 queries and 2 sleeps here, since
2 * pollInterval > maxWaitTime): its deadline check throws inside the
`try`, the generic `catch` swallows the error and sleeps, and the timeout
only surfaces once the attempt budget reaches its final attempt — here
after 4 sleeps, with 5 attempts consumed.  The React Native copy, whose
deadline check sits outside the `try`, terminates at once (2 queries,
2 sleeps), as the claim demands. -/
theorem cli_getAttestation_ignores_deadline :
    Cli.getAttestation shortDeadlineCfg stubAlways404 "0xhash" = (.error .timeout, 2, 4)
    ∧ Mobile.getAttestation shortDeadlineCfg stubAlways404 "0xhash" = (.error .timeout, 2, 2)
    ∧ 2 * shortDeadlineCfg.pollInterval > shortDeadlineCfg.maxWaitTime
    ∧ shortDeadlineCfg.maxRetries = 5 :=
  ⟨rfl, rfl, by decide, rfl⟩

/-- Claim C4 (confirmed): against a stub authority answering 404 on the
first three queries and a complete attestation (non-empty signature) on the
fourth, both copies of `getAttestation` return the complete attestation
after exactly 4 queries, having slept the configured interval exactly 3
times (once between each pair of consecutive queries); each 404 is treated
as pending, not as an error. -/
theorem getAttestation_complete_on_fourth_query (message attestation mh : String)
    (ha : attestation ≠ "") :
    Mobile.getAttestation CIRCLE_API (stub404x3 message attestation) mh
      = (.ok ⟨mh, message, attestation⟩, 4, 3)
    ∧ Cli.getAttestation CIRCLE_API (stub404x3 message attestation) mh
      = (.ok ⟨mh, message, attestation⟩, 4, 3) := by
  constructor
  · show Mobile.getAttestationAux CIRCLE_API (stub404x3 message attestation) mh 150 0 0 = _
    rw [show (150 : Nat) = 149 + 1 from rfl, mobileGetAttestationAux_succ]
    simp only [CIRCLE_API, stub404x3]
    simp
    rw [show (149 : Nat) = 148 + 1 from rfl, mobileGetAttestationAux_succ]
    simp only [CIRCLE_API, stub404x3]
    simp
    rw [show (148 : Nat) = 147 + 1 from rfl, mobileGetAttestationAux_succ]
    simp only [CIRCLE_API, stub404x3]
    simp
    rw [show (147 : Nat) = 146 + 1 from rfl, mobileGetAttestationAux_succ]
    simp only [CIRCLE_API, stub404x3]
    simp [ha]
  · show Cli.getAttestationAux CIRCLE_API (stub404x3 message attestation) mh 150 0 0 = _
    rw [show (150 : Nat) = 149 + 1 from rfl, cliGetAttestationAux_succ]
    simp only [CIRCLE_API, stub404x3]
    simp
    rw [show (149 : Nat) = 148 + 1 from rfl, cliGetAttestationAux_succ]
    simp only [CIRCLE_API, stub404x3]
    simp
    rw [show (148 : Nat) = 147 + 1 from rfl, cliGetAttestationAux_succ]
    simp only [CIRCLE_API, stub404x3]
    simp
    rw [show (147 : Nat) = 146 + 1 from rfl, cliGetAttestationAux_succ]
    simp only [CIRCLE_API, stub404x3]
    simp [ha]

/-- Claim C4 witness: the scenario evaluated at concrete strings. -/
theorem getAttestation_complete_on_fourth_query_witness :
    Mobile.getAttestation CIRCLE_API (stub404x3 "0xmessagebytes" "0xattestationsig") "0xhash"
      = (.ok ⟨"0xhash", "0xmessagebytes", "0xattestationsig"⟩, 4, 3)
    ∧ Cli.getAttestation CIRCLE_API (stub404x3 "0xmessagebytes" "0xattestationsig") "0xhash"
      = (.ok ⟨"0xhash", "0xmessagebytes", "0xattestationsig"⟩, 4, 3) :=
  getAttestation_complete_on_fourth_query "0xmessagebytes" "0xattestationsig" "0xhash"
    (by decide)

/-- Claim C5 (confirmed): whenever a receive succeeds, the reported amount
is exactly the destination balance after the transaction minus the balance
before it — in both receiver copies. -/
theorem receive_reports_balance_delta :
    (∀ (messageBytes attestation : String) (env : ChainEnv),
      (Mobile.receiveCCTPUSDC messageBytes attestation env).success = true →
      (Mobile.receiveCCTPUSDC messageBytes attestation env).usdcAmount
        = some (env.balanceAfter - env.balanceBefore))
    ∧ (∀ (messageBytes attestation : String) (hasKey : Bool) (env : ChainEnv),
      (Cli.receiveCCTPUSDC messageBytes attestation hasKey env).success = true →
      (Cli.receiveCCTPUSDC messageBytes attestation hasKey env).usdcAmount
        = some (env.balanceAfter - env.balanceBefore)) := by
  constructor
  · intro messageBytes attestation env h
    unfold Mobile.receiveCCTPUSDC at h ⊢
    split_ifs at h ⊢ <;> simp_all
  · intro messageBytes attestation hasKey env h
    unfold Cli.receiveCCTPUSDC at h ⊢
    split_ifs at h ⊢ <;> simp_all

/-- Claim C5 witness: on a chain whose balance delta is 2999 while the
nominal request was 3000 smallest units, the reported amount is 2999. -/
theorem receive_reports_balance_delta_witness :
    (Mobile.receiveCCTPUSDC "0xmessagebytes" "0xattestationsig" goodChainEnv).usdcAmount
      = some 2999 :=
  (receive_reports_balance_delta.1 "0xmessagebytes" "0xattestationsig" goodChainEnv
    (by decide)).trans (by norm_num [goodChainEnv])

/-- A string of hexadecimal digits contains no occurrence of "0x"
(because the character x is not a hexadecimal digit), so the JS
first-occurrence replacement leaves it unchanged. -/
theorem replaceFirst0x_of_hex (h : List Char) (hh : ∀ c ∈ h, isHexDigit c) :
    replaceFirst0x h = h := by
  induction h with
  | nil => rfl
  | cons c rest ih =>
    cases rest with
    | nil => rfl
    | cons c2 rest2 =>
      have hc2 : isHexDigit c2 := hh c2 (by simp)
      have hne : ¬ (c = '0' ∧ c2 = 'x') := by
        rintro ⟨-, rfl⟩
        exact absurd hc2 (by decide)
      simp only [replaceFirst0x]
      rw [if_neg hne, ih (fun x hx => hh x (List.mem_cons_of_mem _ hx))]

/-- Claim C8 counterexample: the prefixed and unprefixed spellings of the
same 64-hex-digit address are distinct inputs with the same encoding, so
the codec is not injective on the domain the claim names (all inputs whose
stripped hex part has 64 hex characters). -/
theorem aptosAddressToBytes32_prefix_collision :
    aptosAddressToBytes32 ('0' :: 'x' :: h64) = aptosAddressToBytes32 h64
    ∧ ('0' :: 'x' :: h64) ≠ h64 := by
  constructor
  · rw [show aptosAddressToBytes32 ('0' :: 'x' :: h64) = .ok ('0' :: 'x' :: h64) from rfl]
    rw [show aptosAddressToBytes32 h64 = .ok ('0' :: 'x' :: h64) from rfl]
  · decide

/-- Claim C8 amended: for every 64-hex-digit body `h`, the codec accepts
both the bare and the "0x"-prefixed spelling and returns exactly
`"0x" + h` (never truncated or padded); it is injective up to the optional
prefix (equal encodings force equal stripped hex parts); and every hex
input whose stripped body is shorter or longer than 64 characters is
rejected with the invalid-length error, in either spelling. -/
theorem aptosAddressToBytes32_codec :
    (∀ h : List Char, (∀ c ∈ h, isHexDigit c) → h.length = 64 →
      aptosAddressToBytes32 h = .ok ('0' :: 'x' :: h)
      ∧ aptosAddressToBytes32 ('0' :: 'x' :: h) = .ok ('0' :: 'x' :: h))
    ∧ (∀ h1 h2 : List Char, (∀ c ∈ h1, isHexDigit c) → (∀ c ∈ h2, isHexDigit c) →
      h1.length = 64 → h2.length = 64 →
      aptosAddressToBytes32 h1 = aptosAddressToBytes32 h2 → h1 = h2)
    ∧ (∀ h : List Char, (∀ c ∈ h, isHexDigit c) → h.length ≠ 64 →
      aptosAddressToBytes32 h = .error .invalidLength
      ∧ aptosAddressToBytes32 ('0' :: 'x' :: h) = .error .invalidLength) := by
  have hstrip : ∀ h : List Char, replaceFirst0x ('0' :: 'x' :: h) = h := by
    intro h
    simp [replaceFirst0x]
  have hbare : ∀ h : List Char, (∀ c ∈ h, isHexDigit c) → h.length = 64 →
      aptosAddressToBytes32 h = .ok ('0' :: 'x' :: h) := by
    intro h hh hl
    unfold aptosAddressToBytes32
    rw [replaceFirst0x_of_hex h hh, if_pos hl]
  refine ⟨?_, ?_, ?_⟩
  · intro h hh hl
    refine ⟨hbare h hh hl, ?_⟩
    unfold aptosAddressToBytes32
    rw [hstrip h, if_pos hl]
  · intro h1 h2 hh1 hh2 hl1 hl2 heq
    rw [hbare h1 hh1 hl1, hbare h2 hh2 hl2] at heq
    simpa using heq
  · intro h hh hl
    constructor
    · unfold aptosAddressToBytes32
      rw [replaceFirst0x_of_hex h hh, if_neg hl]
    · unfold aptosAddressToBytes32
      rw [hstrip h, if_neg hl]

/-- Claim C8 witness: the codec accepts the 64-character body of all "a". -/
theorem aptosAddressToBytes32_codec_witness :
    aptosAddressToBytes32 h64 = .ok ('0' :: 'x' :: h64) :=
  (aptosAddressToBytes32_codec.1 h64 (by decide) (by decide)).1

/-- Claim C2 counterexample: the React Native `executeFullCrossChain` never
reads the balance — with a stubbed balance of 2 and a request of 3 it still
invokes approve and `depositForBurn` and succeeds, instead of failing with
an insufficient-balance error. -/
theorem mobile_executeFullCrossChain_skips_balance_check :
    Mobile.executeFullCrossChain 3 h64 lowBalanceMobileEnv
      = (.ok sampleSend, [.approve, .depositForBurn])
    ∧ lowBalanceMobileEnv.balance < 3
    ∧ SendAction.depositForBurn ∈ (Mobile.executeFullCrossChain 3 h64 lowBalanceMobileEnv).2 := by
  refine ⟨rfl, by norm_num [lowBalanceMobileEnv], by decide⟩

/-- Claim C2 amended: the CLI `executeFullCrossChain` checks the balance
first and, whenever it is below the requested amount, fails with the
insufficient-balance error having invoked nothing but the balance check;
the React Native copy performs no balance check at all and, once its
approval succeeds, always proceeds to `depositForBurn`. -/
theorem executeFullCrossChain_balance_guard :
    (∀ (amount : ℚ) (env : Cli.SendEnv) (balance : ℚ),
      env.balanceOutcome = .ok balance → balance < amount →
      Cli.executeFullCrossChain amount env
        = (.error (.insufficientBalance balance amount), [.checkBalance]))
    ∧ (∀ (amount : ℚ) (recipient : List Char) (env : Mobile.SendEnv),
      SendAction.checkBalance ∉ (Mobile.executeFullCrossChain amount recipient env).2)
    ∧ (∀ (amount : ℚ) (recipient : List Char) (env : Mobile.SendEnv) (tx : String),
      env.approveOutcome env.initialNonce = .ok tx →
      SendAction.depositForBurn ∈ (Mobile.executeFullCrossChain amount recipient env).2) := by
  refine ⟨?_, ?_, ?_⟩
  · intro amount env balance hb hlt
    unfold Cli.executeFullCrossChain
    rw [hb]
    simp [hlt]
  · intro amount recipient env
    unfold Mobile.executeFullCrossChain
    cases env.approveOutcome env.initialNonce <;>
      [simp; cases env.depositOutcome (env.initialNonce + 1) <;> simp]
  · intro amount recipient env tx happ
    unfold Mobile.executeFullCrossChain
    rw [happ]
    cases env.depositOutcome (env.initialNonce + 1) <;> simp

/-- Claim C2 witness: the CLI guard fires on a balance of 2 against a
request of 3, and burn is never invoked. -/
theorem executeFullCrossChain_balance_guard_witness :
    Cli.executeFullCrossChain 3 lowBalanceCliEnv
      = (.error (.insufficientBalance 2 3), [.checkBalance]) :=
  executeFullCrossChain_balance_guard.1 3 lowBalanceCliEnv 2 rfl (by norm_num)

/-- Unfolding equation for one attempt of the CLI `depositForBurn` loop. -/
theorem Cli.depositForBurnAux_succ (env : Nat → Except TxError CrossChainResult)
    (fuel attempt sleeps : Nat) :
    Cli.depositForBurnAux env (fuel + 1) attempt sleeps =
      (match env attempt with
      | .ok r => (.ok r, attempt, sleeps)
      | .error e =>
        if e.isNonceExpired ∧ attempt < 3 then
          Cli.depositForBurnAux env fuel (attempt + 1) (sleeps + 1)
        else if attempt = 3 then (.error e, attempt, sleeps)
        else Cli.depositForBurnAux env fuel (attempt + 1) sleeps) := rfl

/-- Claim C7 counterexample: a non-nonce error raised by the first attempt
does not propagate to the caller — the loop falls through to a second
attempt, which here succeeds, so `depositForBurn` returns success instead
of the error. -/
theorem depositForBurn_retries_other_errors :
    Cli.depositForBurn otherThenOkEnv = (.ok cliBurnResult, 2, 0)
    ∧ otherThenOkEnv 1 = .error (.other "insufficient funds for gas") :=
  ⟨rfl, rfl⟩

/-- Claim C7 amended: the CLI `depositForBurn` returns at the first
successful attempt; a detected stale-nonce error is retried after one
2-second backoff sleep, but every other error is also retried — without
backoff — and an error propagates only from the third (final) attempt,
whose outcome the call then returns verbatim. -/
theorem depositForBurn_retry_policy :
    (∀ (env : Nat → Except Cli.TxError Cli.CrossChainResult) (r : Cli.CrossChainResult),
      env 1 = .ok r → Cli.depositForBurn env = (.ok r, 1, 0))
    ∧ (∀ (env : Nat → Except Cli.TxError Cli.CrossChainResult)
        (e1 : Cli.TxError) (r : Cli.CrossChainResult),
      env 1 = .error e1 → env 2 = .ok r →
      Cli.depositForBurn env = (.ok r, 2, if e1.isNonceExpired then 1 else 0))
    ∧ (∀ (env : Nat → Except Cli.TxError Cli.CrossChainResult) (e1 e2 : Cli.TxError),
      env 1 = .error e1 → env 2 = .error e2 →
      Cli.depositForBurn env =
        (env 3, 3,
          (if e1.isNonceExpired then 1 else 0) + (if e2.isNonceExpired then 1 else 0))) := by
  refine ⟨?_, ?_, ?_⟩
  · intro env r h1
    unfold Cli.depositForBurn
    rw [show (3 : Nat) = 2 + 1 from rfl, Cli.depositForBurnAux_succ, h1]
  · intro env e1 r h1 h2
    unfold Cli.depositForBurn
    rw [show (3 : Nat) = 2 + 1 from rfl, Cli.depositForBurnAux_succ, h1]
    cases e1 with
    | nonceExpired m1 =>
      dsimp only
      rw [if_pos ⟨rfl, by norm_num⟩]
      rw [show (2 : Nat) = 1 + 1 from rfl, Cli.depositForBurnAux_succ, h2]
      rfl
    | other m1 =>
      dsimp only
      rw [if_neg (by simp [Cli.TxError.isNonceExpired]), if_neg (by norm_num)]
      rw [show (2 : Nat) = 1 + 1 from rfl, Cli.depositForBurnAux_succ, h2]
      rfl
  · intro env e1 e2 h1 h2
    have step3 : ∀ sleeps : Nat, Cli.depositForBurnAux env 1 3 sleeps = (env 3, 3, sleeps) := by
      intro sleeps
      rw [show (1 : Nat) = 0 + 1 from rfl, Cli.depositForBurnAux_succ]
      cases h3 : env 3 with
      | ok r => rfl
      | error e =>
        dsimp only
        rw [if_neg (by rintro ⟨-, hlt⟩; exact absurd hlt (by norm_num)), if_pos rfl]
    unfold Cli.depositForBurn
    rw [show (3 : Nat) = 2 + 1 from rfl, Cli.depositForBurnAux_succ, h1]
    cases e1 with
    | nonceExpired m1 =>
      dsimp only
      rw [if_pos ⟨rfl, by norm_num⟩]
      rw [show (2 : Nat) = 1 + 1 from rfl, Cli.depositForBurnAux_succ, h2]
      cases e2 with
      | nonceExpired m2 =>
        dsimp only
        rw [if_pos ⟨rfl, by norm_num⟩, step3]
        rfl
      | other m2 =>
        dsimp only
        rw [if_neg (by simp [Cli.TxError.isNonceExpired]), if_neg (by norm_num), step3]
        rfl
    | other m1 =>
      dsimp only
      rw [if_neg (by simp [Cli.TxError.isNonceExpired]), if_neg (by norm_num)]
      rw [show (2 : Nat) = 1 + 1 from rfl, Cli.depositForBurnAux_succ, h2]
      cases e2 with
      | nonceExpired m2 =>
        dsimp only
        rw [if_pos ⟨rfl, by norm_num⟩, step3]
        rfl
      | other m2 =>
        dsimp only
        rw [if_neg (by simp [Cli.TxError.isNonceExpired]), if_neg (by norm_num), step3]
        rfl

/-- Claim C7 witness: with a non-nonce error on attempt 1 and success on
attempt 2, the retry policy yields success after 2 attempts and 0 backoff
sleeps. -/
theorem depositForBurn_retry_policy_witness :
    Cli.depositForBurn otherThenOkEnv
      = (.ok cliBurnResult, 2,
          if (Cli.TxError.other "insufficient funds for gas").isNonceExpired then 1 else 0) :=
  depositForBurn_retry_policy.2.1 otherThenOkEnv
    (.other "insufficient funds for gas") cliBurnResult rfl rfl

/-- Claim C1 (confirmed): on every run in which the source send, the
attestation and the destination receive all succeed, the orchestrator
invokes the callback with exactly the six emissions
step1-processing(10), step1-completed(33), step2-processing(40),
step2-completed(66), step3-processing(75), step3-completed(100) —
percentages strictly increasing — and returns success carrying the source
transaction hash, the destination transaction hash and the transferred
amount. -/
theorem executeCrossChain_success_run (env : Mobile.OrchEnv)
    (send : Mobile.BaseSendResult) (att : AttestationData)
    (hs : env.sendOutcome = .ok send) (hatt : env.attestOutcome = .ok att)
    (hm1 : att.messageBytes ≠ "") (hm2 : startsWith0x att.messageBytes = true)
    (ha1 : att.attestation ≠ "") (ha2 : startsWith0x att.attestation = true)
    (hsub : env.receiverEnv.submitOk = true) (htx : env.receiverEnv.txnSuccess = true) :
    Mobile.executeCrossChain env =
      ([⟨1, 3, .processing, "Burning USDC on Base chain...", none, none, some 10⟩,
        ⟨1, 3, .completed, "Base chain transaction successful", some send.txHash, none, some 33⟩,
        ⟨2, 3, .processing, "Waiting for Circle signature...", none, none, some 40⟩,
        ⟨2, 3, .completed, "Circle signature retrieved successfully", none, none, some 66⟩,
        ⟨3, 3, .processing, "Receiving USDC on Aptos chain...", none, none, some 75⟩,
        ⟨3, 3, .completed, "Cross-chain completed!", some env.receiverEnv.txHash, none, some 100⟩],
       ⟨true, some send.txHash, some env.receiverEnv.txHash, some USDC_AMOUNT, none⟩)
    ∧ List.Chain' (· < ·) ((Mobile.executeCrossChain env).1.filterMap (·.percentage)) := by
  have hr : Mobile.receiveCCTPUSDC att.messageBytes att.attestation env.receiverEnv =
      ⟨env.receiverEnv.txHash, true,
        some (env.receiverEnv.balanceAfter - env.receiverEnv.balanceBefore)⟩ := by
    unfold Mobile.receiveCCTPUSDC
    simp [hm1, hm2, ha1, ha2, hsub, htx]
  have hmain : Mobile.executeCrossChain env =
      ([⟨1, 3, .processing, "Burning USDC on Base chain...", none, none, some 10⟩,
        ⟨1, 3, .completed, "Base chain transaction successful", some send.txHash, none, some 33⟩,
        ⟨2, 3, .processing, "Waiting for Circle signature...", none, none, some 40⟩,
        ⟨2, 3, .completed, "Circle signature retrieved successfully", none, none, some 66⟩,
        ⟨3, 3, .processing, "Receiving USDC on Aptos chain...", none, none, some 75⟩,
        ⟨3, 3, .completed, "Cross-chain completed!", some env.receiverEnv.txHash, none, some 100⟩],
       ⟨true, some send.txHash, some env.receiverEnv.txHash, some USDC_AMOUNT, none⟩) := by
    simp [Mobile.executeCrossChain, hs, hatt, hr]
  refine ⟨hmain, ?_⟩
  rw [hmain]
  simp [List.chain'_cons]

/-- Claim C1 witness: the success scenario at a concrete environment. -/
theorem executeCrossChain_success_run_witness :
    Mobile.executeCrossChain successOrchEnv =
      ([⟨1, 3, .processing, "Burning USDC on Base chain...", none, none, some 10⟩,
        ⟨1, 3, .completed, "Base chain transaction successful", some sampleSend.txHash, none,
          some 33⟩,
        ⟨2, 3, .processing, "Waiting for Circle signature...", none, none, some 40⟩,
        ⟨2, 3, .completed, "Circle signature retrieved successfully", none, none, some 66⟩,
        ⟨3, 3, .processing, "Receiving USDC on Aptos chain...", none, none, some 75⟩,
        ⟨3, 3, .completed, "Cross-chain completed!", some successOrchEnv.receiverEnv.txHash, none,
          some 100⟩],
       ⟨true, some sampleSend.txHash, some successOrchEnv.receiverEnv.txHash, some USDC_AMOUNT,
        none⟩)
    ∧ List.Chain' (· < ·) ((Mobile.executeCrossChain successOrchEnv).1.filterMap (·.percentage)) :=
  executeCrossChain_success_run successOrchEnv sampleSend sampleAttestation rfl rfl
    (by decide) rfl (by decide) rfl rfl rfl

/-- Claim C6 counterexample: when the destination transaction reverts, the
React Native receiver swallows its own error and returns a structured
failure, and the orchestrator then reports the substituted fixed message
"Aptos receive failed" — not the underlying revert message, and not
"Destination transaction reverted". -/
theorem executeCrossChain_generic_receive_error :
    (Mobile.executeCrossChain revertOrchEnv).2
      = ⟨false, none, none, none, some "Aptos receive failed"⟩
    ∧ "Aptos receive failed" ≠ "Destination transaction reverted" :=
  ⟨rfl, by decide⟩

/-- Claim C6 amended: the orchestrator reports verbatim the message of the
error observed at its own boundary: a step-1 or step-2 error message is
propagated unchanged into the returned error and into the final failed
emission, but when the destination receive fails, the receiver has already
swallowed the underlying error, so the orchestrator reports its own fixed
message "Aptos receive failed"; in every failing case the progress stream
ends with the failed emission and the earlier emissions are preserved. -/
theorem executeCrossChain_error_reporting :
    (∀ (env : Mobile.OrchEnv) (msg : String), env.sendOutcome = .error msg →
      Mobile.executeCrossChain env =
        ([⟨1, 3, .processing, "Burning USDC on Base chain...", none, none, some 10⟩,
          failProgress msg],
         ⟨false, none, none, none, some msg⟩))
    ∧ (∀ (env : Mobile.OrchEnv) (send : Mobile.BaseSendResult) (msg : String),
      env.sendOutcome = .ok send → env.attestOutcome = .error msg →
      Mobile.executeCrossChain env =
        ([⟨1, 3, .processing, "Burning USDC on Base chain...", none, none, some 10⟩,
          ⟨1, 3, .completed, "Base chain transaction successful", some send.txHash, none, some 33⟩,
          ⟨2, 3, .processing, "Waiting for Circle signature...", none, none, some 40⟩,
          failProgress msg],
         ⟨false, none, none, none, some msg⟩))
    ∧ (∀ (env : Mobile.OrchEnv) (send : Mobile.BaseSendResult) (att : AttestationData),
      env.sendOutcome = .ok send → env.attestOutcome = .ok att →
      (Mobile.receiveCCTPUSDC att.messageBytes att.attestation env.receiverEnv).success = false →
      Mobile.executeCrossChain env =
        ([⟨1, 3, .processing, "Burning USDC on Base chain...", none, none, some 10⟩,
          ⟨1, 3, .completed, "Base chain transaction successful", some send.txHash, none, some 33⟩,
          ⟨2, 3, .processing, "Waiting for Circle signature...", none, none, some 40⟩,
          ⟨2, 3, .completed, "Circle signature retrieved successfully", none, none, some 66⟩,
          ⟨3, 3, .processing, "Receiving USDC on Aptos chain...", none, none, some 75⟩,
          failProgress "Aptos receive failed"],
         ⟨false, none, none, none, some "Aptos receive failed"⟩)) := by
  refine ⟨?_, ?_, ?_⟩
  · intro env msg h
    simp [Mobile.executeCrossChain, h, failProgress]
  · intro env send msg h1 h2
    simp [Mobile.executeCrossChain, h1, h2, failProgress]
  · intro env send att h1 h2 hr
    simp [Mobile.executeCrossChain, h1, h2, hr, failProgress]

/-- Claim C6 witness: a step-1 error message "boom" is propagated verbatim. -/
theorem executeCrossChain_error_reporting_witness :
    Mobile.executeCrossChain sendFailOrchEnv =
      ([⟨1, 3, .processing, "Burning USDC on Base chain...", none, none, some 10⟩,
        failProgress "boom"],
       ⟨false, none, none, none, some "boom"⟩) :=
  executeCrossChain_error_reporting.1 sendFailOrchEnv "boom" rfl

/-- Claim C9 counterexample: on a failing run, the final failed emission
carries step 0, outside the 1..3 range the claim asserts for every
emission. -/
theorem failed_progress_step_zero :
    failProgress "boom" ∈ (Mobile.executeCrossChain sendFailOrchEnv).1
    ∧ (failProgress "boom").step = 0
    ∧ ¬ 1 ≤ (failProgress "boom").step :=
  ⟨by decide, rfl, by decide⟩

/-- Claim C9 amended: every emission of the orchestrator has totalSteps 3;
every processing or completed emission has step between 1 and 3; the single
failed emission of a failing run instead carries step 0. -/
theorem executeCrossChain_progress_bounds (env : Mobile.OrchEnv) (p : CrossChainProgress)
    (hp : p ∈ (Mobile.executeCrossChain env).1) :
    p.totalSteps = 3
    ∧ (p.status ≠ .failed → 1 ≤ p.step ∧ p.step ≤ 3)
    ∧ (p.status = .failed → p.step = 0) := by
  cases hso : env.sendOutcome with
  | error msg =>
    simp only [Mobile.executeCrossChain, hso] at hp
    simp only [List.mem_cons, List.not_mem_nil, or_false] at hp
    rcases hp with rfl | rfl
    · exact ⟨rfl, fun _ => by norm_num, fun h => nomatch h⟩
    · exact ⟨rfl, fun h => absurd rfl h, fun _ => rfl⟩
  | ok send =>
    cases hao : env.attestOutcome with
    | error msg =>
      simp only [Mobile.executeCrossChain, hso, hao] at hp
      simp only [List.mem_cons, List.not_mem_nil, or_false] at hp
      rcases hp with rfl | rfl | rfl | rfl
      · exact ⟨rfl, fun _ => by norm_num, fun h => nomatch h⟩
      · exact ⟨rfl, fun _ => by norm_num, fun h => nomatch h⟩
      · exact ⟨rfl, fun _ => by norm_num, fun h => nomatch h⟩
      · exact ⟨rfl, fun h => absurd rfl h, fun _ => rfl⟩
    | ok att =>
      simp only [Mobile.executeCrossChain, hso, hao] at hp
      by_cases hrs :
          (Mobile.receiveCCTPUSDC att.messageBytes att.attestation env.receiverEnv).success = true
      · rw [if_pos hrs] at hp
        dsimp only at hp
        simp only [List.mem_cons, List.not_mem_nil, or_false] at hp
        rcases hp with rfl | rfl | rfl | rfl | rfl | rfl <;>
          exact ⟨rfl, fun _ => by norm_num, fun h => nomatch h⟩
      · rw [if_neg hrs] at hp
        dsimp only at hp
        simp only [List.mem_cons, List.not_mem_nil, or_false] at hp
        rcases hp with rfl | rfl | rfl | rfl | rfl | rfl
        · exact ⟨rfl, fun _ => by norm_num, fun h => nomatch h⟩
        · exact ⟨rfl, fun _ => by norm_num, fun h => nomatch h⟩
        · exact ⟨rfl, fun _ => by norm_num, fun h => nomatch h⟩
        · exact ⟨rfl, fun _ => by norm_num, fun h => nomatch h⟩
        · exact ⟨rfl, fun _ => by norm_num, fun h => nomatch h⟩
        · exact ⟨rfl, fun h => absurd rfl h, fun _ => rfl⟩

/-- Claim C9 witness: the invariants at the first emission of a successful
concrete run. -/
theorem executeCrossChain_progress_bounds_witness :
    (⟨1, 3, .processing, "Burning USDC on Base chain...", none, none, some 10⟩ :
        CrossChainProgress).totalSteps = 3
    ∧ ((⟨1, 3, .processing, "Burning USDC on Base chain...", none, none, some 10⟩ :
        CrossChainProgress).status ≠ .failed →
      1 ≤ (⟨1, 3, .processing, "Burning USDC on Base chain...", none, none, some 10⟩ :
        CrossChainProgress).step
      ∧ (⟨1, 3, .processing, "Burning USDC on Base chain...", none, none, some 10⟩ :
        CrossChainProgress).step ≤ 3)
    ∧ ((⟨1, 3, .processing, "Burning USDC on Base chain...", none, none, some 10⟩ :
        CrossChainProgress).status = .failed →
      (⟨1, 3, .processing, "Burning USDC on Base chain...", none, none, some 10⟩ :
        CrossChainProgress).step = 0) :=
  executeCrossChain_progress_bounds successOrchEnv
    ⟨1, 3, .processing, "Burning USDC on Base chain...", none, none, some 10⟩ (by decide)

set_option maxRecDepth 100000 in
/-- Claim C10 (code bug): the manual fallback decoder is not equivalent to
the atob path on padded base64: stripping the padding first makes the
out-of-range charAt indices read as 0 rather than 64, so the guards meant
to drop the padding bytes never fire and the fallback appends extra bytes.
On the minimal padded input "QQ==" the fallback yields three bytes where
atob yields one; on the embedded script constant (whose stripped length is
310, leaving a trailing two-character block) the fallback yields 234 bytes
against 232, so the submitted bytecode differs between the two runtime
environments. -/
theorem base64_fallback_diverges_from_atob :
    fallbackBase64ToBytes "QQ==".toList = [65, 0, 0]
    ∧ atobBase64ToBytes "QQ==".toList = [65]
    ∧ (fallbackBase64ToBytes CCTP_SCRIPT_BASE64.toList).length = 234
    ∧ (atobBase64ToBytes CCTP_SCRIPT_BASE64.toList).length = 232
    ∧ fallbackBase64ToBytes CCTP_SCRIPT_BASE64.toList
        ≠ atobBase64ToBytes CCTP_SCRIPT_BASE64.toList := by
  have h234 : (fallbackBase64ToBytes CCTP_SCRIPT_BASE64.toList).length = 234 := by decide
  have h232 : (atobBase64ToBytes CCTP_SCRIPT_BASE64.toList).length = 232 := by decide
  refine ⟨by decide, by decide, h234, h232, fun hEq => ?_⟩
  rw [hEq, h232] at h234
  exact absurd h234 (by decide)

end Saffron
